import Mathlib

/-!
# Formula Status Trigger — verification development

Shallow embedding of the core logic of the `monday-formula-status-trigger`
repository (`src/config.js`, `src/utils.js`, `src/mondayClient.js`, and the
Express webhook server), together with theorems about the embedded
definitions.

Modelling conventions:
* JavaScript numbers are idealised as rationals (`ℚ`) extended with the
  special values `+Infinity`, `-Infinity` and `NaN` (`JSNum`); IEEE-754
  rounding is not modelled (every numeral appearing in the configuration and
  in the properties below is exactly representable).  The signed zero `-0`
  is identified with `0`, which no comparison in the program can distinguish.
* JavaScript values reaching the webhook handler are modelled by the
  inductive `JVal` (null, undefined, booleans, numbers, strings, objects as
  association lists).  Property access on `null`/`undefined` throws, which is
  modelled with `Except`.
* Environment variables and HTTP headers are modelled as `Option String`
  (`none` = unset).
* The Node `crypto` HMAC primitive and `JSON.stringify` are not part of the
  repository; the signature verifier takes them as explicit function
  parameters.
* The Monday.com HTTP API is modelled as an oracle `Nat → ApiResponse`
  giving the server's response to the n-th attempt of a query.
-/

/-- A JavaScript number: a finite value (idealised as a rational),
positive or negative infinity, or `NaN`. -/
inductive JSNum where
  | fin (q : ℚ)
  | posInf
  | negInf
  | nan
deriving Repr, DecidableEq

namespace JSNum

/-- JavaScript `<` on numbers: any comparison involving `NaN` is false. -/
def ltB : JSNum → JSNum → Bool
  | .fin a, .fin b => a < b
  | .fin _, .posInf => true
  | .negInf, .fin _ => true
  | .negInf, .posInf => true
  | _, _ => false

/-- JavaScript `<=` on numbers: false when either side is `NaN`,
otherwise the negation of the reversed strict comparison. -/
def leB : JSNum → JSNum → Bool
  | .nan, _ => false
  | _, .nan => false
  | a, b => !(ltB b a)

/-- JavaScript `>`. -/
def gtB (a b : JSNum) : Bool := ltB b a

/-- JavaScript `>=`. -/
def geB (a b : JSNum) : Bool := leB b a

end JSNum

/-- A JavaScript value as it appears in a parsed JSON webhook payload:
null, undefined, boolean, number, string, or object (association list of
fields).  Arrays and functions do not occur in the modelled payloads. -/
inductive JVal where
  | jnull
  | jundefined
  | jbool (b : Bool)
  | jnum (n : JSNum)
  | jstr (s : String)
  | jobj (fields : List (String × JVal))
deriving Repr

namespace JVal

/-- JavaScript truthiness: `null`, `undefined`, `false`, `0`, `NaN` and the
empty string are falsy; every other value (including every object) is truthy. -/
def truthy : JVal → Bool
  | .jnull => false
  | .jundefined => false
  | .jbool b => b
  | .jnum (.fin q) => q ≠ 0
  | .jnum .nan => false
  | .jnum _ => true
  | .jstr s => s ≠ ""
  | .jobj _ => true

/-- JavaScript property access `v.name`: throws a `TypeError` on `null` and
`undefined` (modelled as `Except.error`), yields the field's value on an
object with that field, and `undefined` otherwise (primitives included). -/
def getField : JVal → String → Except Unit JVal
  | .jnull, _ => .error ()
  | .jundefined, _ => .error ()
  | .jobj fields, name => .ok ((fields.lookup name).getD .jundefined)
  | _, _ => .ok .jundefined

/-- JavaScript `a || b`: `a` if truthy, else `b`. -/
def jsOr (a b : JVal) : JVal := if truthy a then a else b

/-- JavaScript `typeof v === 'object'` restricted to the values of `JVal`:
true for objects and for `null` (a JavaScript quirk). -/
def typeofIsObject : JVal → Bool
  | .jobj _ => true
  | .jnull => true
  | _ => false

/-- JavaScript strict equality `v === s` against a string literal `s`
(as used by `Array.prototype.includes` on a list of strings):
no coercion, so only a string with the same characters compares equal. -/
def eqStr : JVal → String → Bool
  | .jstr t, s => t = s
  | _, _ => false

end JVal

/-! ## String helpers: `String.prototype.replace`, `trim`, and `parseFloat` -/

/-- The whitespace class used by JavaScript `trim` and `parseFloat`
(restricted to the characters that can occur in the modelled payloads). -/
def jsWhitespace (c : Char) : Bool :=
  c = ' ' || c = '\t' || c = '\n' || c = '\r' ||
  c = '\x0b' || c = '\x0c' || c = '\u00A0' || c = '\uFEFF'

/-- `value.replace(/[,$%]/g, '')`: remove every comma, dollar sign and
percent sign from the string. -/
def stripFormatting (s : String) : String :=
  String.mk (s.toList.filter (fun c => !(c = ',' || c = '$' || c = '%')))

/-- JavaScript `String.prototype.trim`: drop leading and trailing whitespace. -/
def jsTrim (s : String) : String :=
  String.mk (((s.toList.dropWhile jsWhitespace).reverse.dropWhile jsWhitespace).reverse)

/-- Value of a digit string, most significant digit first. -/
def digitsToNat (ds : List Char) : Nat :=
  ds.foldl (fun a c => 10 * a + (c.toNat - 48)) 0

/-- The scan phase of JavaScript `parseFloat`: skip leading whitespace,
read an optional sign, then the longest prefix that is a decimal literal.
The outcome is `Infinity` with its sign, or the literal's parts (sign,
integer digits, fraction digits, exponent value), or no literal at all
(trailing garbage is ignored; a missing exponent, or an `e` not followed
by digits, counts as exponent 0). -/
inductive FloatScan where
  | noLiteral
  | infinity (neg : Bool)
  | decimal (neg : Bool) (ints fracs : List Char) (exp : Int)
deriving Repr, DecidableEq

/-- Scan a string as JavaScript `parseFloat` does (see `FloatScan`). -/
def scanFloat (s : String) : FloatScan :=
  let cs := s.toList.dropWhile jsWhitespace
  let signAndRest : Bool × List Char :=
    match cs with
    | '+' :: rest => (false, rest)
    | '-' :: rest => (true, rest)
    | _ => (false, cs)
  let neg := signAndRest.1
  let cs := signAndRest.2
  if "Infinity".toList.isPrefixOf cs then .infinity neg
  else
    let ints := cs.takeWhile Char.isDigit
    let cs1 := cs.dropWhile Char.isDigit
    let fracAndRest : List Char × List Char :=
      match cs1 with
      | '.' :: rest => (rest.takeWhile Char.isDigit, rest.dropWhile Char.isDigit)
      | _ => ([], cs1)
    let fracs := fracAndRest.1
    let cs2 := fracAndRest.2
    if ints.isEmpty && fracs.isEmpty then .noLiteral
    else
      let expVal : Int :=
        match cs2 with
        | e :: rest =>
          if e = 'e' || e = 'E' then
            let esignAndRest : Bool × List Char :=
              match rest with
              | '+' :: r => (false, r)
              | '-' :: r => (true, r)
              | _ => (false, rest)
            let eds := esignAndRest.2.takeWhile Char.isDigit
            if eds.isEmpty then 0
            else if esignAndRest.1 then -(digitsToNat eds : Int) else (digitsToNat eds : Int)
          else 0
        | [] => 0
      .decimal neg ints fracs expVal

/-- JavaScript `parseFloat`: `NaN` when the scan finds no decimal literal,
otherwise the value of the scanned literal, idealised as a rational
(`(ints + fracs / 10 ^ |fracs|) × 10 ^ exp`, negated under a minus sign). -/
def parseFloat (s : String) : JSNum :=
  match scanFloat s with
  | .noLiteral => .nan
  | .infinity neg => if neg then .negInf else .posInf
  | .decimal neg ints fracs exp =>
    let mant : ℚ := (digitsToNat ints : ℚ) + (digitsToNat fracs : ℚ) / (10 : ℚ) ^ fracs.length
    let v : ℚ := mant * (10 : ℚ) ^ exp
    .fin (if neg then -v else v)

/-! ## `src/config.js` -/

/-- A status-mapping rule from `config.statusMapping`: label, status index,
color, and the numeric predicate attached as `condition`. -/
structure StatusRule where
  label : String
  index : Nat
  color : String
  condition : JSNum → Bool

/-- `config.statusMapping`: the ordered default rule list of `src/config.js`. -/
def statusMapping : List StatusRule :=
  [ { label := "Done", index := 1, color := "green",
      condition := fun value => JSNum.gtB value (.fin 100) },
    { label := "Working on it", index := 2, color := "yellow",
      condition := fun value => JSNum.geB value (.fin 50) && JSNum.leB value (.fin 100) },
    { label := "Stuck", index := 3, color := "red",
      condition := fun value => JSNum.ltB value (.fin 50) } ]

/-- `config.formulaColumnTypes`. -/
def formulaColumnTypes : List String := ["formula"]

/-- `config.ignoreColumnTypes`. -/
def ignoreColumnTypes : List String := ["status"]

/-- `config.rateLimit`: the retry policy. -/
structure RetryPolicy where
  maxRetries : Nat
  initialDelayMs : Nat
  maxDelayMs : Nat
  backoffMultiplier : Nat
deriving Repr, DecidableEq

/-- `config.rateLimit` values from `src/config.js`. -/
def rateLimit : RetryPolicy :=
  { maxRetries := 3, initialDelayMs := 1000, maxDelayMs := 10000, backoffMultiplier := 2 }

/-! ## `src/utils.js` -/

/-- `parseFormulaValue(value)` from `src/utils.js`: `null`/`undefined` give
null; strings are cleaned (`replace(/[,$%]/g,'')` then `trim`) and parsed
with `parseFloat`, a `NaN` parse giving null; a number is returned as-is
unless it is `NaN`; any other type gives null.  `none` models `null`. -/
def parseFormulaValue : JVal → Option JSNum
  | .jnull => none
  | .jundefined => none
  | .jstr s =>
    let cleaned := jsTrim (stripFormatting s)
    match parseFloat cleaned with
    | .nan => none
    | n => some n
  | .jnum n =>
    match n with
    | .nan => none
    | n => some n
  | _ => none

/-- The `{label, index, color}` projection returned by `mapValueToStatus`. -/
structure ResolvedStatus where
  label : String
  index : Nat
  color : String
deriving Repr, DecidableEq

/-- The object literal `{label: status.label, index: status.index,
color: status.color}` built inside `mapValueToStatus`. -/
def projectRule (r : StatusRule) : ResolvedStatus :=
  { label := r.label, index := r.index, color := r.color }

/-- The argument of `mapValueToStatus`: a number (possibly `NaN`), `null`,
or `undefined` — the only values its callers and its own guard consider. -/
inductive NumInput where
  | nullV
  | undefinedV
  | num (n : JSNum)
deriving Repr

/-- `mapValueToStatus(value)` from `src/utils.js`: null for `null`,
`undefined` and `NaN`, otherwise the projection of the first rule of
`config.statusMapping` whose `condition` holds, and null when none does. -/
def mapValueToStatus : NumInput → Option ResolvedStatus
  | .nullV => none
  | .undefinedV => none
  | .num .nan => none
  | .num n => (statusMapping.find? (fun status => status.condition n)).map projectRule

/-- The flat event record built by `extractEventData`; each field is a raw
JavaScript value (possibly `undefined`). -/
structure EventRecord where
  boardId : JVal
  itemId : JVal
  columnId : JVal
  columnType : JVal
  value : JVal
  previousValue : JVal
  userId : JVal
deriving Repr

/-- `Array.prototype.includes` of a string list applied to a JavaScript
value, as in `config.ignoreColumnTypes.includes(event.columnType)`. -/
def includesVal (l : List String) (v : JVal) : Bool :=
  l.any (fun s => v.eqStr s)

/-- `shouldProcessEvent(event)` from `src/utils.js`: false when
`event.columnType` is truthy and in `config.ignoreColumnTypes`; false when
it is truthy and not in `config.formulaColumnTypes`; true otherwise. -/
def shouldProcessEvent (event : EventRecord) : Bool :=
  if event.columnType.truthy && includesVal ignoreColumnTypes event.columnType then false
  else if event.columnType.truthy && !includesVal formulaColumnTypes event.columnType then false
  else true

/-- `validateWebhookPayload(payload)` from `src/utils.js`: the payload must
be truthy, of type object, and carry a truthy `event` field. -/
def validateWebhookPayload (payload : JVal) : Bool :=
  if !payload.truthy || !payload.typeofIsObject then false
  else
    match payload.getField "event" with
    | .error _ => false
    | .ok v => v.truthy

/-- `extractEventData(payload)` from `src/utils.js`: read the event fields
(`boardId` falling back to the top-level `boardId`, `pulseId` falling back
to `itemId`), returning `none` when a property access throws (the
`try`/`catch` of the source). -/
def extractEventData (payload : JVal) : Option EventRecord :=
  let r : Except Unit EventRecord := do
    let event ← payload.getField "event"
    let eBoardId ← event.getField "boardId"
    let pBoardId ← payload.getField "boardId"
    let ePulseId ← event.getField "pulseId"
    let eItemId ← event.getField "itemId"
    let eColumnId ← event.getField "columnId"
    let eColumnType ← event.getField "columnType"
    let eValue ← event.getField "value"
    let ePreviousValue ← event.getField "previousValue"
    let eUserId ← event.getField "userId"
    pure { boardId := eBoardId.jsOr pBoardId
           itemId := ePulseId.jsOr eItemId
           columnId := eColumnId
           columnType := eColumnType
           value := eValue
           previousValue := ePreviousValue
           userId := eUserId }
  match r with
  | .ok record => some record
  | .error _ => none

/-- `calculateBackoffDelay(attempt)` from `src/utils.js`:
`min(initialDelayMs * backoffMultiplier ^ attempt, maxDelayMs)`. -/
def calculateBackoffDelay (attempt : Nat) : Nat :=
  min (rateLimit.initialDelayMs * rateLimit.backoffMultiplier ^ attempt) rateLimit.maxDelayMs

/-! ## `src/mondayClient.js` -/

/-- A Monday.com API response to one attempt: the HTTP status code, the
`errors` field of the parsed JSON body (carrying the error detail when
present), and the `data` field of the parsed JSON body. -/
structure ApiResponse where
  status : Nat
  errors : Option String
  payload : String
deriving Repr, DecidableEq

/-- `response.ok` of the fetch API: status in the range 200–299. -/
def respOk (r : ApiResponse) : Bool := 200 ≤ r.status && r.status ≤ 299

/-- The outcome of `executeQuery`: the returned `data.data` on success, or
one of the three thrown errors (`Rate limit exceeded. Max retries
reached.`, `Monday API error: ...` with the body's error detail, or
`HTTP error! status: ...`). -/
inductive QueryOutcome where
  | success (d : String)
  | rateLimitExceeded
  | apiError (detail : String)
  | httpError (status : Nat)
deriving Repr, DecidableEq

/-- `executeQuery(query, variables, retryCount)` from `src/mondayClient.js`,
with the network modelled by `responses : Nat → ApiResponse` giving the
server's response to each attempt (attempt `k` is the call with
`retryCount = k`).  Returns the outcome together with the list of backoff
delays slept, in order.  A 429 status with `retryCount <
config.rateLimit.maxRetries` sleeps `calculateBackoffDelay retryCount` and
retries with `retryCount + 1`; a 429 with retries exhausted throws the
rate-limit error; otherwise a body with `errors` throws the API error, a
non-ok status throws the HTTP error, and an ok response returns
`data.data`. -/
def executeQuery (responses : Nat → ApiResponse) (retryCount : Nat) :
    QueryOutcome × List Nat :=
  let r := responses retryCount
  if r.status = 429 then
    if h : retryCount < rateLimit.maxRetries then
      let res := executeQuery responses (retryCount + 1)
      (res.1, calculateBackoffDelay retryCount :: res.2)
    else
      (.rateLimitExceeded, [])
  else
    match r.errors with
    | some e => (.apiError e, [])
    | none =>
      if respOk r then (.success r.payload, []) else (.httpError r.status, [])
termination_by rateLimit.maxRetries + 1 - retryCount
decreasing_by omega

/-! ## Webhook server (Express handler) -/

/-- An inbound webhook request: the `authorization` header (the signature)
and the parsed JSON body. -/
structure WebhookRequest where
  authorization : Option String
  body : JVal

/-- `verifyWebhookSignature(req)` from the server file: with no signing
secret configured (unset or empty environment variable, both falsy in
JavaScript) every request is accepted; otherwise a missing or empty
`authorization` header is rejected, and a supplied signature is accepted
exactly when it is string-equal to the HMAC-SHA-256 hex digest of the
serialized body keyed by the secret.  The Node `crypto` HMAC and
`JSON.stringify` are external library primitives, passed in as `hmacHex`
(secret → message → hex digest) and `serialize`. -/
def verifyWebhookSignature (hmacHex : String → String → String)
    (serialize : JVal → String) (secret : Option String)
    (req : WebhookRequest) : Bool :=
  match secret with
  | none => true
  | some sec =>
    if sec = "" then true
    else
      match req.authorization with
      | none => false
      | some signature =>
        if signature = "" then false
        else signature = hmacHex sec (serialize req.body)

/-- An HTTP reply sent by the webhook endpoint: status code and the body's
`error`/`message` string, matching the literals of the source. -/
structure HttpReply where
  status : Nat
  message : String
deriving Repr, DecidableEq

/-- The synchronous part of `app.post('/webhook')`: verify the signature
(else 401 `Invalid signature`), validate the payload (else 400 `Invalid
payload`), extract the event (else 400 `Invalid event data`), filter the
event (else 200 `Event ignored`), and otherwise reply 200 `Webhook
received` while handing the extracted event to the deferred
(`setImmediate`) processing task, returned as the second component. -/
def handleWebhook (hmacHex : String → String → String)
    (serialize : JVal → String) (secret : Option String)
    (req : WebhookRequest) : HttpReply × Option EventRecord :=
  if !verifyWebhookSignature hmacHex serialize secret req then
    ({ status := 401, message := "Invalid signature" }, none)
  else if !validateWebhookPayload req.body then
    ({ status := 400, message := "Invalid payload" }, none)
  else
    match extractEventData req.body with
    | none => ({ status := 400, message := "Invalid event data" }, none)
    | some eventData =>
      if !shouldProcessEvent eventData then
        ({ status := 200, message := "Event ignored" }, none)
      else
        ({ status := 200, message := "Webhook received" }, some eventData)

/-- The outcome of the deferred `processWebhookEvent` task: the value could
not be parsed, no status rule matched, or the update mutation was attempted
with the given status index and finished with the given `executeQuery`
outcome (any error being caught and logged, never rethrown). -/
inductive ProcessOutcome where
  | unparseable
  | noStatusMatch
  | updateAttempted (statusIndex : Nat) (result : QueryOutcome)
deriving Repr, DecidableEq

/-- `processWebhookEvent(eventData)` from the server file: parse the raw
formula value (stop when null), map it to a status (stop when null), then
call `updateStatusColumn`, whose mutation goes through `executeQuery`
against the `responses` oracle starting at `retryCount = 0`. -/
def processWebhookEvent (responses : Nat → ApiResponse)
    (eventData : EventRecord) : ProcessOutcome :=
  match parseFormulaValue eventData.value with
  | none => .unparseable
  | some numericValue =>
    match mapValueToStatus (.num numericValue) with
    | none => .noStatusMatch
    | some status => .updateAttempted status.index (executeQuery responses 0).1

/-- The whole exchange for one webhook delivery: the synchronous HTTP reply
together with the outcome of the deferred processing task (absent when no
task was scheduled).  The reply is computed by `handleWebhook` alone; the
oracle `responses` is consulted only by the deferred task. -/
def webhookInteraction (hmacHex : String → String → String)
    (serialize : JVal → String) (secret : Option String)
    (responses : Nat → ApiResponse) (req : WebhookRequest) :
    HttpReply × Option ProcessOutcome :=
  let r := handleWebhook hmacHex serialize secret req
  (r.1, r.2.map (processWebhookEvent responses))

/-! ## Theorems -/

/-- `List.find?` returns the element at index `i` when every earlier
element fails the predicate and the element at `i` satisfies it. -/
theorem find?_eq_get_of_first {α : Type} (p : α → Bool) (l : List α) :
    ∀ (i : Nat) (hi : i < l.length),
      (∀ r ∈ l.take i, p r = false) → p (l.get ⟨i, hi⟩) = true →
      l.find? p = some (l.get ⟨i, hi⟩) := by
  induction l with
  | nil => intro i hi _ _; simp at hi
  | cons a l ih =>
    intro i hi hpre hp
    cases i with
    | zero =>
      exact List.find?_cons_of_pos l hp
    | succ i =>
      have ha : p a = false := hpre a (by simp)
      have hrec := ih i (by simpa using hi)
        (fun r hr => hpre r (by simp [hr])) hp
      rw [List.find?_cons_of_neg l (by simp [ha])]
      exact hrec

/-- C1: `mapValueToStatus` scans `config.statusMapping` in declaration
order and returns the `{label, index, color}` projection of the first rule
whose `condition` holds; it returns null when no rule matches or when the
input is null, undefined, or `NaN`.  Under the default configuration, 75
maps to "Working on it"/2/yellow (the first matching rule in order), 150 to
"Done"/1/green, 30 to "Stuck"/3/red, and `NaN` to null. -/
theorem mapValueToStatus_first_match :
    (∀ (n : JSNum) (i : Nat) (hi : i < statusMapping.length),
        (∀ r ∈ statusMapping.take i, r.condition n = false) →
        (statusMapping.get ⟨i, hi⟩).condition n = true →
        mapValueToStatus (.num n) = some (projectRule (statusMapping.get ⟨i, hi⟩)))
  ∧ (∀ n : JSNum, n ≠ .nan → (∀ r ∈ statusMapping, r.condition n = false) →
      mapValueToStatus (.num n) = none)
  ∧ mapValueToStatus .nullV = none
  ∧ mapValueToStatus .undefinedV = none
  ∧ mapValueToStatus (.num .nan) = none
  ∧ mapValueToStatus (.num (.fin 75)) =
      some { label := "Working on it", index := 2, color := "yellow" }
  ∧ mapValueToStatus (.num (.fin 150)) =
      some { label := "Done", index := 1, color := "green" }
  ∧ mapValueToStatus (.num (.fin 30)) =
      some { label := "Stuck", index := 3, color := "red" } := by
  refine ⟨?_, ?_, rfl, rfl, rfl, by decide, by decide, by decide⟩
  · intro n i hi hpre hp
    match n with
    | .nan =>
      exfalso
      have hall : ∀ r ∈ statusMapping, r.condition .nan = false := by decide
      rw [hall _ (statusMapping.get_mem i hi)] at hp
      exact Bool.false_ne_true hp
    | .fin q =>
      show (statusMapping.find? (fun status => status.condition (.fin q))).map projectRule = _
      rw [find?_eq_get_of_first _ statusMapping i hi hpre hp]
      rfl
    | .posInf =>
      show (statusMapping.find? (fun status => status.condition .posInf)).map projectRule = _
      rw [find?_eq_get_of_first _ statusMapping i hi hpre hp]
      rfl
    | .negInf =>
      show (statusMapping.find? (fun status => status.condition .negInf)).map projectRule = _
      rw [find?_eq_get_of_first _ statusMapping i hi hpre hp]
      rfl
  · intro n hn hall
    match n with
    | .nan => exact absurd rfl hn
    | .fin q =>
      show (statusMapping.find? (fun status => status.condition (.fin q))).map projectRule = _
      rw [List.find?_eq_none.mpr (fun x hx => by simp [hall x hx])]
      rfl
    | .posInf =>
      show (statusMapping.find? (fun status => status.condition .posInf)).map projectRule = _
      rw [List.find?_eq_none.mpr (fun x hx => by simp [hall x hx])]
      rfl
    | .negInf =>
      show (statusMapping.find? (fun status => status.condition .negInf)).map projectRule = _
      rw [List.find?_eq_none.mpr (fun x hx => by simp [hall x hx])]
      rfl

/-- Witness for C1: rule 1 ("Working on it") is the first rule matching 75
(rule 0 fails), and `mapValueToStatus` returns its projection. -/
theorem mapValueToStatus_first_match_witness :
    mapValueToStatus (.num (.fin 75)) =
      some (projectRule (statusMapping.get ⟨1, by decide⟩)) :=
  mapValueToStatus_first_match.1 (.fin 75) 1 (by decide) (by decide) (by decide)

/-- C4: `calculateBackoffDelay attempt` equals
`min(initialDelayMs * backoffMultiplier ^ attempt, maxDelayMs)`; with the
configured policy (1000 ms initial, multiplier 2, 10000 ms cap), attempts
0–3 give 1000, 2000, 4000, 8000 ms, and every attempt from 4 on gives the
cap 10000 ms. -/
theorem calculateBackoffDelay_spec :
    (∀ attempt : Nat, calculateBackoffDelay attempt =
        min (rateLimit.initialDelayMs * rateLimit.backoffMultiplier ^ attempt)
          rateLimit.maxDelayMs)
  ∧ calculateBackoffDelay 0 = 1000
  ∧ calculateBackoffDelay 1 = 2000
  ∧ calculateBackoffDelay 2 = 4000
  ∧ calculateBackoffDelay 3 = 8000
  ∧ (∀ attempt : Nat, 4 ≤ attempt → calculateBackoffDelay attempt = 10000) := by
  refine ⟨fun _ => rfl, by decide, by decide, by decide, by decide, ?_⟩
  intro attempt ha
  have h16 : 16 ≤ 2 ^ attempt := by
    calc (16 : Nat) = 2 ^ 4 := by norm_num
    _ ≤ 2 ^ attempt := Nat.pow_le_pow_right (by norm_num) ha
  show min (1000 * 2 ^ attempt) 10000 = 10000
  omega

/-- Witness for C4: attempt 6 is past the cap threshold and yields 10000. -/
theorem calculateBackoffDelay_spec_witness : calculateBackoffDelay 6 = 10000 :=
  calculateBackoffDelay_spec.2.2.2.2.2 6 (by decide)

/-- C2: the total contract of `parseFormulaValue`: a number is returned
unchanged unless it is `NaN` (then null); a string is cleaned
(`replace(/[,$%]/g,'')` then `trim`) and parsed with `parseFloat`, null
exactly when the parse is `NaN`; every other type (null, undefined,
booleans, objects) gives null, as do non-numeric strings such as "abc". -/
theorem parseFormulaValue_contract :
    (∀ q : ℚ, parseFormulaValue (.jnum (.fin q)) = some (.fin q))
  ∧ parseFormulaValue (.jnum .posInf) = some .posInf
  ∧ parseFormulaValue (.jnum .negInf) = some .negInf
  ∧ parseFormulaValue (.jnum .nan) = none
  ∧ (∀ s : String, parseFormulaValue (.jstr s) =
      (match parseFloat (jsTrim (stripFormatting s)) with
       | .nan => none
       | n => some n))
  ∧ (∀ s : String, parseFormulaValue (.jstr s) = none ↔
      parseFloat (jsTrim (stripFormatting s)) = .nan)
  ∧ parseFormulaValue .jnull = none
  ∧ parseFormulaValue .jundefined = none
  ∧ (∀ b : Bool, parseFormulaValue (.jbool b) = none)
  ∧ (∀ fields, parseFormulaValue (.jobj fields) = none)
  ∧ parseFormulaValue (.jstr "abc") = none := by
  refine ⟨fun _ => rfl, rfl, rfl, rfl, fun _ => rfl, ?_, rfl, rfl, fun _ => rfl,
    fun _ => rfl, by decide⟩
  intro s
  show (match parseFloat (jsTrim (stripFormatting s)) with
        | .nan => none
        | n => some n) = none ↔ _
  cases h : parseFloat (jsTrim (stripFormatting s)) <;> simp [h]

/-- Lists filtered twice by the same predicate equal the once-filtered list. -/
theorem stripFormatting_idem (s : String) :
    stripFormatting (stripFormatting s) = stripFormatting s := by
  simp only [stripFormatting, String.toList]
  rw [List.filter_filter]
  simp

/-- C9: cleaning is idempotent, so `parseFormulaValue` on any string agrees
with `parseFormulaValue` on the string with all thousands separators,
currency symbols and percent signs removed; in particular "1,234.5%"
parses to 1234.5. -/
theorem parseFormulaValue_strips_formatting :
    (∀ s : String,
        parseFormulaValue (.jstr s) = parseFormulaValue (.jstr (stripFormatting s)))
  ∧ parseFormulaValue (.jstr "1,234.5%") = some (.fin (2469 / 2)) := by
  constructor
  · intro s
    show (match parseFloat (jsTrim (stripFormatting s)) with
          | .nan => none | n => some n) =
         (match parseFloat (jsTrim (stripFormatting (stripFormatting s))) with
          | .nan => none | n => some n)
    rw [stripFormatting_idem]
  · have hscan : scanFloat (jsTrim (stripFormatting "1,234.5%")) =
        .decimal false ['1', '2', '3', '4'] ['5'] 0 := by decide
    have h1234 : digitsToNat ['1', '2', '3', '4'] = 1234 := by decide
    have h5 : digitsToNat ['5'] = 5 := by decide
    show (match parseFloat (jsTrim (stripFormatting "1,234.5%")) with
          | .nan => none | n => some n) = some (.fin (2469 / 2))
    simp only [parseFloat, hscan, h1234, h5]
    norm_num

/-- A field is present when it is not `undefined` (a missing key in the
payload extracts to `undefined`). -/
def JVal.isPresent : JVal → Bool
  | .jundefined => false
  | _ => true

/-- Modelled from the spec: claim C5's reading of the event filter, in which
both membership checks are gated on the mere *presence* of
`event.columnType` ("returns false if event.columnType is present and is in
the configured ignore-set; returns false if event.columnType is present and
is not a member of the configured allow-list; otherwise returns true"),
rather than on JavaScript truthiness as in `shouldProcessEvent`. -/
def shouldProcessEventPresentSpec (event : EventRecord) : Bool :=
  if event.columnType.isPresent && includesVal ignoreColumnTypes event.columnType then false
  else if event.columnType.isPresent && !includesVal formulaColumnTypes event.columnType then false
  else true

/-- An event whose `columnType` is the empty string (falsy but present). -/
def evEmptyColumnType : EventRecord :=
  { boardId := .jundefined, itemId := .jundefined, columnId := .jundefined,
    columnType := .jstr "", value := .jundefined, previousValue := .jundefined,
    userId := .jundefined }

/-- An event with `columnType: "status"`. -/
def evStatusColumnType : EventRecord :=
  { boardId := .jundefined, itemId := .jundefined, columnId := .jundefined,
    columnType := .jstr "status", value := .jundefined, previousValue := .jundefined,
    userId := .jundefined }

/-- An event with `columnType: "formula"`. -/
def evFormulaColumnType : EventRecord :=
  { boardId := .jundefined, itemId := .jundefined, columnId := .jundefined,
    columnType := .jstr "formula", value := .jundefined, previousValue := .jundefined,
    userId := .jundefined }

/-- An event with no `columnType` field. -/
def evAbsentColumnType : EventRecord :=
  { boardId := .jundefined, itemId := .jundefined, columnId := .jundefined,
    columnType := .jundefined, value := .jundefined, previousValue := .jundefined,
    userId := .jundefined }

/-- Counterexample to C5: an event whose `columnType` is the empty string.
The field is present and is not a member of the allow-list
`config.formulaColumnTypes`, so the claim requires `false`; but the empty
string is falsy in JavaScript, so `shouldProcessEvent`'s guards
(`event.columnType && ...`) skip both membership checks and it returns
`true`, disagreeing with the claim's prediction. -/
theorem shouldProcessEvent_empty_string_counterexample :
    (evEmptyColumnType.columnType.isPresent = true
      ∧ includesVal formulaColumnTypes evEmptyColumnType.columnType = false
      ∧ shouldProcessEventPresentSpec evEmptyColumnType = false)
    ∧ shouldProcessEvent evEmptyColumnType = true := by
  decide

/-- C5 (amended): `shouldProcessEvent` returns false when
`event.columnType` is truthy (present and non-empty) and in the configured
ignore-set; false when it is truthy and not in the configured allow-list;
and true otherwise (in particular whenever `columnType` is absent or
falsy).  Under the default configuration, `columnType: "status"` gives
false, `"formula"` gives true, and an absent `columnType` gives true. -/
theorem shouldProcessEvent_spec :
    (∀ event : EventRecord, event.columnType.truthy = true →
        includesVal ignoreColumnTypes event.columnType = true →
        shouldProcessEvent event = false)
  ∧ (∀ event : EventRecord, event.columnType.truthy = true →
        includesVal formulaColumnTypes event.columnType = false →
        shouldProcessEvent event = false)
  ∧ (∀ event : EventRecord, event.columnType.truthy = false →
        shouldProcessEvent event = true)
  ∧ (∀ event : EventRecord,
        includesVal ignoreColumnTypes event.columnType = false →
        includesVal formulaColumnTypes event.columnType = true →
        shouldProcessEvent event = true)
  ∧ shouldProcessEvent evStatusColumnType = false
  ∧ shouldProcessEvent evFormulaColumnType = true
  ∧ shouldProcessEvent evAbsentColumnType = true := by
  refine ⟨?_, ?_, ?_, ?_, by decide, by decide, by decide⟩
  · intro event ht hig
    simp [shouldProcessEvent, ht, hig]
  · intro event ht hfm
    simp [shouldProcessEvent, ht, hfm]
  · intro event ht
    simp [shouldProcessEvent, ht]
  · intro event hig hfm
    simp [shouldProcessEvent, hig, hfm]

/-- Witness for C5 (amended): the loop-prevention branch fires on a
concrete `"status"`-typed event. -/
theorem shouldProcessEvent_spec_witness :
    shouldProcessEvent evStatusColumnType = false :=
  shouldProcessEvent_spec.1 evStatusColumnType (by decide) (by decide)

/-- C3: the retry state machine of `executeQuery`.  On an HTTP 429 with
`retryCount < maxRetries`, the call sleeps `calculateBackoffDelay
retryCount` and behaves as the same query retried with `retryCount + 1`;
on a 429 once `retryCount = maxRetries`, it fails terminally with the
rate-limit-exceeded error (no further sleep, no further attempt).  Any
non-429 response with application-level error entries fails immediately
with the API error carrying the server's error detail; any other non-429,
non-success response fails immediately with the HTTP error carrying the
status; in both cases nothing is retried (no sleeps, no later response
consulted).  A non-429 success without errors returns the response
payload's data field. -/
theorem executeQuery_retry_machine :
    (∀ (responses : Nat → ApiResponse) (k : Nat),
        (responses k).status = 429 → k < rateLimit.maxRetries →
        executeQuery responses k =
          ((executeQuery responses (k + 1)).1,
            calculateBackoffDelay k :: (executeQuery responses (k + 1)).2))
  ∧ (∀ responses : Nat → ApiResponse,
        (responses rateLimit.maxRetries).status = 429 →
        executeQuery responses rateLimit.maxRetries = (.rateLimitExceeded, []))
  ∧ (∀ (responses : Nat → ApiResponse) (k : Nat) (e : String),
        (responses k).status ≠ 429 → (responses k).errors = some e →
        executeQuery responses k = (.apiError e, []))
  ∧ (∀ (responses : Nat → ApiResponse) (k : Nat),
        (responses k).status ≠ 429 → (responses k).errors = none →
        respOk (responses k) = false →
        executeQuery responses k = (.httpError (responses k).status, []))
  ∧ (∀ (responses : Nat → ApiResponse) (k : Nat),
        (responses k).status ≠ 429 → (responses k).errors = none →
        respOk (responses k) = true →
        executeQuery responses k = (.success (responses k).payload, [])) := by
  refine ⟨?_, ?_, ?_, ?_, ?_⟩
  · intro responses k h429 hlt
    rw [executeQuery]
    simp only [h429, if_true, hlt, dif_pos]
  · intro responses h429
    rw [executeQuery]
    simp only [h429, if_true]
    rw [dif_neg (by omega)]
  · intro responses k e h429 herr
    rw [executeQuery]
    simp [h429, herr]
  · intro responses k h429 herr hok
    rw [executeQuery]
    simp [h429, herr, hok]
  · intro responses k h429 herr hok
    rw [executeQuery]
    simp [h429, herr, hok]

/-- A concrete response sequence: two rate-limit responses followed by
successes. -/
def sampleResponses : Nat → ApiResponse := fun k =>
  if k < 2 then { status := 429, errors := none, payload := "" }
  else { status := 200, errors := none, payload := "data" }

/-- Witness for C3: on the concrete sequence, attempt 0 is rate limited
below the retry cap, so the call sleeps the first backoff delay and behaves
as the retry with `retryCount = 1`. -/
theorem executeQuery_retry_machine_witness :
    executeQuery sampleResponses 0 =
      ((executeQuery sampleResponses 1).1,
        calculateBackoffDelay 0 :: (executeQuery sampleResponses 1).2) :=
  executeQuery_retry_machine.1 sampleResponses 0 rfl (by decide)

/-- C7: with no signing secret configured, every request is accepted
(verification is skipped); with a non-empty secret, a missing
`authorization` header is rejected, and a supplied header is accepted
exactly when it is string-equal to the HMAC-SHA-256 hex digest of the
serialized body keyed by the secret (the digest being non-empty, as a hex
digest always is), so every other supplied string is rejected.  The
verifier is a total boolean function, so it never throws. -/
theorem verifyWebhookSignature_spec :
    (∀ (hmacHex : String → String → String) (serialize : JVal → String)
        (req : WebhookRequest),
        verifyWebhookSignature hmacHex serialize none req = true)
  ∧ (∀ (hmacHex : String → String → String) (serialize : JVal → String)
        (sec : String) (req : WebhookRequest),
        sec ≠ "" → req.authorization = none →
        verifyWebhookSignature hmacHex serialize (some sec) req = false)
  ∧ (∀ (hmacHex : String → String → String) (serialize : JVal → String)
        (sec : String) (req : WebhookRequest) (sig : String),
        sec ≠ "" → req.authorization = some sig →
        hmacHex sec (serialize req.body) ≠ "" →
        (verifyWebhookSignature hmacHex serialize (some sec) req = true ↔
          sig = hmacHex sec (serialize req.body))) := by
  refine ⟨fun _ _ _ => rfl, ?_, ?_⟩
  · intro hmacHex serialize sec req hsec hauth
    simp [verifyWebhookSignature, hsec, hauth]
  · intro hmacHex serialize sec req sig hsec hauth hdig
    by_cases hsig : sig = ""
    · subst hsig
      simp [verifyWebhookSignature, hsec, hauth]
      exact fun h => absurd h.symm hdig
    · simp [verifyWebhookSignature, hsec, hauth, hsig]

/-- Witness for C7: a concrete secret, body serialization and HMAC; the
matching header is accepted (the iff instantiated at a concrete request). -/
theorem verifyWebhookSignature_spec_witness :
    verifyWebhookSignature (fun _ _ => "ab12cd") (fun _ => "s")
        (some "s3cr3t") { authorization := some "ab12cd", body := .jnull } = true ↔
      "ab12cd" = (fun (_ _ : String) => "ab12cd") "s3cr3t"
        ((fun (_ : JVal) => "s") (JVal.jnull)) :=
  verifyWebhookSignature_spec.2.2 (fun _ _ => "ab12cd") (fun _ => "s") "s3cr3t"
    { authorization := some "ab12cd", body := .jnull } "ab12cd"
    (by decide) rfl (by decide)

/-- After validation, the extracted `event` field is a value whose own
property accesses cannot throw, so `extractEventData` yields a record. -/
theorem extractEventData_isSome_of_valid (payload : JVal) :
    validateWebhookPayload payload = true → (extractEventData payload).isSome = true := by
  intro hval
  match payload with
  | .jnull => simp [validateWebhookPayload, JVal.truthy] at hval
  | .jundefined => simp [validateWebhookPayload, JVal.truthy] at hval
  | .jbool b => simp [validateWebhookPayload, JVal.typeofIsObject] at hval
  | .jnum n => simp [validateWebhookPayload, JVal.typeofIsObject] at hval
  | .jstr s => simp [validateWebhookPayload, JVal.typeofIsObject] at hval
  | .jobj fields =>
    have hev : ((fields.lookup "event").getD .jundefined).truthy = true := by
      simpa [validateWebhookPayload, JVal.getField, JVal.typeofIsObject, JVal.truthy]
        using hval
    cases hv : (fields.lookup "event").getD .jundefined with
    | jnull => rw [hv] at hev; simp [JVal.truthy] at hev
    | jundefined => rw [hv] at hev; simp [JVal.truthy] at hev
    | jbool b => simp [extractEventData, JVal.getField, hv, Except.bind, bind, pure, Except.pure]
    | jnum n => simp [extractEventData, JVal.getField, hv, Except.bind, bind, pure, Except.pure]
    | jstr s => simp [extractEventData, JVal.getField, hv, Except.bind, bind, pure, Except.pure]
    | jobj efields => simp [extractEventData, JVal.getField, hv, Except.bind, bind, pure, Except.pure]

/-- C10: whenever `validateWebhookPayload` accepts a payload (a truthy
object with a truthy `event` field), `extractEventData` returns a record
rather than throwing (modelled: it returns `some`), and consequently the
endpoint's 400 `Invalid event data` branch — taken only when extraction
fails after validation succeeded — can never be the reply. -/
theorem extractEventData_total_after_validation :
    (∀ payload : JVal, validateWebhookPayload payload = true →
        (extractEventData payload).isSome = true)
  ∧ (∀ (hmacHex : String → String → String) (serialize : JVal → String)
        (secret : Option String) (req : WebhookRequest),
        (handleWebhook hmacHex serialize secret req).1 ≠
          { status := 400, message := "Invalid event data" }) := by
  refine ⟨extractEventData_isSome_of_valid, ?_⟩
  intro hmacHex serialize secret req
  cases hsig : verifyWebhookSignature hmacHex serialize secret req with
  | false => simp [handleWebhook, hsig]
  | true =>
    cases hval : validateWebhookPayload req.body with
    | false => simp [handleWebhook, hsig, hval]
    | true =>
      cases hx : extractEventData req.body with
      | none =>
        have h := extractEventData_isSome_of_valid req.body hval
        rw [hx] at h
        simp at h
      | some ed =>
        cases hsp : shouldProcessEvent ed with
        | false => simp [handleWebhook, hsig, hval, hx, hsp]
        | true => simp [handleWebhook, hsig, hval, hx, hsp]

/-- Witness for C10: a concrete payload accepted by validation, on which
extraction yields a record. -/
theorem extractEventData_total_after_validation_witness :
    (extractEventData (.jobj [("event", .jobj [("pulseId", .jstr "123")])])).isSome = true :=
  extractEventData_total_after_validation.1
    (.jobj [("event", .jobj [("pulseId", .jstr "123")])]) (by decide)

/-- A webhook payload whose event is a formula-column change
(`value: "85%"`, `pulseId: "123"`, `boardId: "456"`). -/
def sampleFormulaPayload : JVal :=
  .jobj [("event", .jobj
    [ ("boardId", .jstr "456"), ("pulseId", .jstr "123"),
      ("columnId", .jstr "formula_col"), ("columnType", .jstr "formula"),
      ("value", .jstr "85%"), ("previousValue", .jnull), ("userId", .jstr "u1") ])]

/-- The record `extractEventData` produces from `sampleFormulaPayload`. -/
def sampleFormulaEvent : EventRecord :=
  { boardId := .jstr "456", itemId := .jstr "123",
    columnId := .jstr "formula_col", columnType := .jstr "formula",
    value := .jstr "85%", previousValue := .jnull, userId := .jstr "u1" }

/-- The same payload with a status-column event instead. -/
def sampleStatusPayload : JVal :=
  .jobj [("event", .jobj
    [ ("boardId", .jstr "456"), ("pulseId", .jstr "123"),
      ("columnId", .jstr "status_col"), ("columnType", .jstr "status"),
      ("value", .jstr "85%"), ("previousValue", .jnull), ("userId", .jstr "u1") ])]

/-- C6: the synchronous replies of the webhook endpoint, in cascade order:
a failed signature verification replies 401 `Invalid signature`; then a
failed payload validation replies 400 `Invalid payload`; then a failed
extraction replies 400 `Invalid event data`; then an event rejected by the
filter replies 200 `Event ignored`; otherwise the reply is 200 `Webhook
received`.  Every conjunct holds for an arbitrary API oracle, and the last
conjunct states directly that the reply is the same whatever the remote
API does — failures of the deferred processing (unparseable value, no
status match, API error, rate-limit exhaustion) never change the reply. -/
theorem webhook_response_cascade :
    (∀ (hmacHex : String → String → String) (serialize : JVal → String)
        (secret : Option String) (responses : Nat → ApiResponse)
        (req : WebhookRequest),
        verifyWebhookSignature hmacHex serialize secret req = false →
        (webhookInteraction hmacHex serialize secret responses req).1 =
          { status := 401, message := "Invalid signature" })
  ∧ (∀ (hmacHex : String → String → String) (serialize : JVal → String)
        (secret : Option String) (responses : Nat → ApiResponse)
        (req : WebhookRequest),
        verifyWebhookSignature hmacHex serialize secret req = true →
        validateWebhookPayload req.body = false →
        (webhookInteraction hmacHex serialize secret responses req).1 =
          { status := 400, message := "Invalid payload" })
  ∧ (∀ (hmacHex : String → String → String) (serialize : JVal → String)
        (secret : Option String) (responses : Nat → ApiResponse)
        (req : WebhookRequest),
        verifyWebhookSignature hmacHex serialize secret req = true →
        validateWebhookPayload req.body = true →
        extractEventData req.body = none →
        (webhookInteraction hmacHex serialize secret responses req).1 =
          { status := 400, message := "Invalid event data" })
  ∧ (∀ (hmacHex : String → String → String) (serialize : JVal → String)
        (secret : Option String) (responses : Nat → ApiResponse)
        (req : WebhookRequest) (ed : EventRecord),
        verifyWebhookSignature hmacHex serialize secret req = true →
        validateWebhookPayload req.body = true →
        extractEventData req.body = some ed →
        shouldProcessEvent ed = false →
        (webhookInteraction hmacHex serialize secret responses req).1 =
          { status := 200, message := "Event ignored" })
  ∧ (∀ (hmacHex : String → String → String) (serialize : JVal → String)
        (secret : Option String) (responses : Nat → ApiResponse)
        (req : WebhookRequest) (ed : EventRecord),
        verifyWebhookSignature hmacHex serialize secret req = true →
        validateWebhookPayload req.body = true →
        extractEventData req.body = some ed →
        shouldProcessEvent ed = true →
        (webhookInteraction hmacHex serialize secret responses req).1 =
          { status := 200, message := "Webhook received" })
  ∧ (∀ (hmacHex : String → String → String) (serialize : JVal → String)
        (secret : Option String) (responses responses2 : Nat → ApiResponse)
        (req : WebhookRequest),
        (webhookInteraction hmacHex serialize secret responses req).1 =
          (webhookInteraction hmacHex serialize secret responses2 req).1) := by
  refine ⟨?_, ?_, ?_, ?_, ?_, fun _ _ _ _ _ _ => rfl⟩
  · intro hmacHex serialize secret responses req hsig
    simp [webhookInteraction, handleWebhook, hsig]
  · intro hmacHex serialize secret responses req hsig hval
    simp [webhookInteraction, handleWebhook, hsig, hval]
  · intro hmacHex serialize secret responses req hsig hval hx
    simp [webhookInteraction, handleWebhook, hsig, hval, hx]
  · intro hmacHex serialize secret responses req ed hsig hval hx hsp
    simp [webhookInteraction, handleWebhook, hsig, hval, hx, hsp]
  · intro hmacHex serialize secret responses req ed hsig hval hx hsp
    simp [webhookInteraction, handleWebhook, hsig, hval, hx, hsp]

/-- Witness for C6: with no secret configured and a concrete eligible
formula event, the endpoint replies 200 `Webhook received` before (and
regardless of) any remote call on the sample oracle. -/
theorem webhook_response_cascade_witness :
    (webhookInteraction (fun _ _ => "h") (fun _ => "b") none sampleResponses
        { authorization := none, body := sampleFormulaPayload }).1 =
      { status := 200, message := "Webhook received" } :=
  webhook_response_cascade.2.2.2.2.1 (fun _ _ => "h") (fun _ => "b") none
    sampleResponses { authorization := none, body := sampleFormulaPayload }
    sampleFormulaEvent rfl rfl rfl rfl

/-- Counterexample to C8: the claim says the Event Filter (pipeline step 3)
runs only asynchronously after the response, so the synchronous reply could
never depend on the filter's verdict.  But on a concrete request that
passes signature verification, validation and extraction while carrying
`columnType: "status"`, the synchronous part of the endpoint already
replies 200 `Event ignored` and schedules no deferred task at all: the
filter ran before the response (only parsing/mapping and the remote update
are deferred). -/
theorem webhook_filter_before_response_counterexample :
    verifyWebhookSignature (fun _ _ => "h") (fun _ => "b") none
        { authorization := none, body := sampleStatusPayload } = true
  ∧ validateWebhookPayload sampleStatusPayload = true
  ∧ (extractEventData sampleStatusPayload).isSome = true
  ∧ handleWebhook (fun _ _ => "h") (fun _ => "b") none
        { authorization := none, body := sampleStatusPayload } =
      ({ status := 200, message := "Event ignored" }, none) :=
  ⟨rfl, rfl, rfl, rfl⟩

/-- C8 (amended): the endpoint replies immediately, and only steps 4–5 —
value parsing/mapping and the remote update, i.e. `processWebhookEvent` —
run asynchronously after the response: the reply never depends on the API
oracle, it equals the synchronous `handleWebhook` reply, a scheduled
deferred task implies the reply was already 200 `Webhook received` and the
task's whole outcome (parse, map, update) is computed after it, and event
filtering (step 3) instead runs synchronously: an extracted event rejected
by the filter leads to no deferred task at all. -/
theorem webhook_async_steps_spec :
    (∀ (hmacHex : String → String → String) (serialize : JVal → String)
        (secret : Option String) (responses responses2 : Nat → ApiResponse)
        (req : WebhookRequest),
        (webhookInteraction hmacHex serialize secret responses req).1 =
          (webhookInteraction hmacHex serialize secret responses2 req).1)
  ∧ (∀ (hmacHex : String → String → String) (serialize : JVal → String)
        (secret : Option String) (responses : Nat → ApiResponse)
        (req : WebhookRequest),
        (webhookInteraction hmacHex serialize secret responses req).1 =
          (handleWebhook hmacHex serialize secret req).1)
  ∧ (∀ (hmacHex : String → String → String) (serialize : JVal → String)
        (secret : Option String) (responses : Nat → ApiResponse)
        (req : WebhookRequest) (ed : EventRecord),
        (handleWebhook hmacHex serialize secret req).2 = some ed →
        (webhookInteraction hmacHex serialize secret responses req).1 =
            { status := 200, message := "Webhook received" }
          ∧ (webhookInteraction hmacHex serialize secret responses req).2 =
            some (processWebhookEvent responses ed))
  ∧ (∀ (hmacHex : String → String → String) (serialize : JVal → String)
        (secret : Option String) (req : WebhookRequest) (ed : EventRecord),
        extractEventData req.body = some ed → shouldProcessEvent ed = false →
        (handleWebhook hmacHex serialize secret req).2 = none) := by
  refine ⟨fun _ _ _ _ _ _ => rfl, fun _ _ _ _ _ => rfl, ?_, ?_⟩
  · intro hm sz sec responses req ed h2
    cases hsig : verifyWebhookSignature hm sz sec req with
    | false => simp [handleWebhook, hsig] at h2
    | true =>
      cases hval : validateWebhookPayload req.body with
      | false => simp [handleWebhook, hsig, hval] at h2
      | true =>
        cases hx : extractEventData req.body with
        | none => simp [handleWebhook, hsig, hval, hx] at h2
        | some ed2 =>
          cases hsp : shouldProcessEvent ed2 with
          | false => simp [handleWebhook, hsig, hval, hx, hsp] at h2
          | true =>
            have hed : ed2 = ed := by
              simpa [handleWebhook, hsig, hval, hx, hsp] using h2
            subst hed
            constructor
            · simp [webhookInteraction, handleWebhook, hsig, hval, hx, hsp]
            · simp [webhookInteraction, handleWebhook, hsig, hval, hx, hsp]
  · intro hm sz sec req ed hx hsp
    cases hsig : verifyWebhookSignature hm sz sec req with
    | false => simp [handleWebhook, hsig]
    | true =>
      cases hval : validateWebhookPayload req.body with
      | false => simp [handleWebhook, hsig, hval]
      | true => simp [handleWebhook, hsig, hval, hx, hsp]

/-- Witness for C8 (amended): on the concrete formula-column request, a
deferred task is scheduled, so the reply is 200 `Webhook received` and the
deferred outcome is exactly the processing of the extracted event against
the oracle. -/
theorem webhook_async_steps_spec_witness :
    (webhookInteraction (fun _ _ => "h") (fun _ => "b") none sampleResponses
        { authorization := none, body := sampleFormulaPayload }).1 =
        { status := 200, message := "Webhook received" }
      ∧ (webhookInteraction (fun _ _ => "h") (fun _ => "b") none sampleResponses
        { authorization := none, body := sampleFormulaPayload }).2 =
        some (processWebhookEvent sampleResponses sampleFormulaEvent) :=
  webhook_async_steps_spec.2.2.1 (fun _ _ => "h") (fun _ => "b") none
    sampleResponses { authorization := none, body := sampleFormulaPayload }
    sampleFormulaEvent rfl
